import Mathlib

/-!
Verification of the warehouse-operations API client (api_client.py, config.py).

The Python source is shallowly embedded: every definition below transcribes a
function, loop or expression of the source.  HTTP transport is external to the
program and is modelled as an oracle from the queried customer id to the
response payload (`none` standing for a transport error or a non-success HTTP
status, both of which `raise_for_status`/`requests.post` surface as exceptions
caught by the per-customer handler).  JSON payloads are modelled by the
inductive type `Value`; Python floats by `Rat` (the quantities the program
parses are decimal literals, which rationals represent exactly).
-/

/-! ## Python string primitives -/

/-- Characters Python's default `str.strip()` removes (the ASCII whitespace
Python treats as such; the configuration strings of this program are ASCII). -/
def isPySpace (c : Char) : Bool :=
  c = ' ' || c = '\t' || c = '\n' || c = '\r' || c = '\x0b' || c = '\x0c'

/-- Core of `str.strip()`: drop leading and trailing whitespace characters. -/
def stripChars (l : List Char) : List Char :=
  ((l.dropWhile isPySpace).reverse.dropWhile isPySpace).reverse

/-- Python `str.strip()`. -/
def pyStrip (s : String) : String :=
  String.mk (stripChars s.data)

/-- Python `str.split(',')`: the comma-separated pieces, in order; the empty
string yields one empty piece. -/
def splitComma : List Char → List (List Char)
  | [] => [[]]
  | c :: rest =>
    if c = ',' then [] :: splitComma rest
    else
      match splitComma rest with
      | [] => [[c]]
      | h :: t => (c :: h) :: t

/-- Joining pieces back with a comma: the left inverse of `splitComma`. -/
def joinComma : List (List Char) → List Char
  | [] => []
  | [x] => x
  | x :: xs => x ++ ',' :: joinComma xs

/-- Python `str.lower()` (ASCII; the sheet names compared are ASCII). -/
def pyLower (s : String) : String :=
  String.mk (s.data.map Char.toLower)

/-- Does `needle` begin `hay`? -/
def beginsWith : List Char → List Char → Bool
  | [], _ => true
  | _ :: _, [] => false
  | a :: as, b :: bs => a = b && beginsWith as bs

/-- Python `needle in hay` on strings: contiguous-substring occurrence. -/
def occursIn (needle hay : List Char) : Bool :=
  match hay with
  | [] => needle.isEmpty
  | _ :: t => beginsWith needle hay || occursIn needle t

/-- Python `x in l` on a list of strings. -/
def memStr (x : String) : List String → Bool
  | [] => false
  | y :: t => if y = x then true else memStr x t

/-! ## JSON-like values (Python dict/list/str/number/None) -/

/-- A JSON payload value as the Python code manipulates it. -/
inductive Value where
  | null
  | str (s : String)
  | num (q : Rat)
  | list (xs : List Value)
  | dict (fs : List (String × Value))

/-- First binding of a key in an association list (a Python dict has unique
keys, so first-match lookup is its lookup). -/
def assocGet {α : Type} : List (String × α) → String → Option α
  | [], _ => none
  | (k, v) :: rest, key => if k = key then some v else assocGet rest key

/-- Python `d.get(key, default)`. -/
def pyDictGet (fs : List (String × Value)) (key : String) (dflt : Value) : Value :=
  (assocGet fs key).getD dflt

/-- Python truthiness of a value (`if receipt_ids:`). -/
def truthy : Value → Bool
  | .null => false
  | .str s => !s.isEmpty
  | .num q => !(q = 0 : Bool)
  | .list xs => !xs.isEmpty
  | .dict fs => !fs.isEmpty

/-! ## Python float() -/

/-- Numeric value of a digit run. -/
def digitsToNat (l : List Char) : Nat :=
  l.foldl (fun n c => 10 * n + (c.toNat - '0'.toNat)) 0

/-- Unsigned decimal literal: `digits`, `digits.`, `digits.digits` or
`.digits`.  `none` models the ValueError Python raises otherwise. -/
def parseDec (l : List Char) : Option Rat :=
  let intPart := l.takeWhile Char.isDigit
  let rest := l.dropWhile Char.isDigit
  match rest with
  | [] => if intPart.isEmpty then none else some (digitsToNat intPart : Rat)
  | '.' :: frac =>
    if frac.all Char.isDigit && !(intPart.isEmpty && frac.isEmpty) then
      some ((digitsToNat intPart : Rat) + (digitsToNat frac : Rat) / (10 : Rat) ^ frac.length)
    else none
  | _ => none

/-- Python `float(s)` on a string: surrounding whitespace is ignored, an
optional sign precedes a decimal literal.  (The exotic forms `inf`, `nan`,
exponents and digit underscores never reach this program's data and are
modelled as failures.) -/
def pyFloatStr (l : List Char) : Option Rat :=
  match stripChars l with
  | '+' :: r => parseDec r
  | '-' :: r => (parseDec r).map Neg.neg
  | r => parseDec r

/-- Python `float(v)` on a payload value: numbers pass through, strings are
parsed, `None`/lists/dicts raise TypeError (modelled as `none`). -/
def pyFloat : Value → Option Rat
  | .num q => some q
  | .str s => pyFloatStr s.data
  | _ => none

/-- The numeric effect of Python's `float(x) or 0`: a zero float is replaced
by the integer 0, any other value kept (numerically the identity). -/
def orZero (q : Rat) : Rat :=
  if q = 0 then 0 else q

/-! ## Naive datetimes (Python `datetime`)

The program uses `datetime.now()`, `+ timedelta(days=n)`, `replace(hour=...,
minute=..., second=...)` and `strftime('%Y-%m-%dT%H:%M:%S')`.  A naive
datetime is a calendar date plus a time of day down to microseconds; adding a
whole-day timedelta moves the date and leaves the time of day unchanged, and
`replace` substitutes exactly the named fields (in particular it keeps the
microsecond field). -/

/-- A calendar date (proleptic Gregorian, as Python's `datetime.date`). -/
structure Date where
  year : Int
  month : Nat
  day : Nat
deriving DecidableEq

/-- Gregorian leap year. -/
def isLeap (y : Int) : Bool :=
  y % 4 = 0 && (!(y % 100 = 0 : Bool) || y % 400 = 0)

/-- Days in a month. -/
def daysInMonth (y : Int) (m : Nat) : Nat :=
  if m = 2 then (if isLeap y then 29 else 28)
  else if m = 4 || m = 6 || m = 9 || m = 11 then 30
  else 31

/-- The following calendar day. -/
def nextDay (d : Date) : Date :=
  if d.day < daysInMonth d.year d.month then { d with day := d.day + 1 }
  else if d.month < 12 then { year := d.year, month := d.month + 1, day := 1 }
  else { year := d.year + 1, month := 1, day := 1 }

/-- The preceding calendar day. -/
def prevDay (d : Date) : Date :=
  if 1 < d.day then { d with day := d.day - 1 }
  else if 1 < d.month then
    { year := d.year, month := d.month - 1, day := daysInMonth d.year (d.month - 1) }
  else { year := d.year - 1, month := 12, day := 31 }

/-- `d` plus `n` calendar days (the effect of `+ timedelta(days=n)` on the
date part of a naive datetime). -/
def addDays (d : Date) (n : Int) : Date :=
  match n with
  | .ofNat k => nextDay^[k] d
  | .negSucc k => prevDay^[k + 1] d

/-- A naive Python datetime. -/
structure PyDateTime where
  date : Date
  hour : Nat
  minute : Nat
  second : Nat
  microsecond : Nat
deriving DecidableEq

/-- Time of day in microseconds. -/
def timeMicro (t : PyDateTime) : Nat :=
  ((t.hour * 60 + t.minute) * 60 + t.second) * 1000000 + t.microsecond

/-- Strict chronological order on naive datetimes (date lexicographically,
then time of day). -/
def dtBefore (a b : PyDateTime) : Prop :=
  a.date.year < b.date.year ∨
    (a.date.year = b.date.year ∧
      (a.date.month < b.date.month ∨
        (a.date.month = b.date.month ∧
          (a.date.day < b.date.day ∨
            (a.date.day = b.date.day ∧ timeMicro a < timeMicro b)))))

/-- Zero-padded two-digit field (`%m`, `%d`, `%H`, `%M`, `%S`). -/
def pad2 (n : Nat) : String :=
  if n < 10 then "0" ++ toString n else toString n

/-- Zero-padded four-digit year (`%Y`; the program's dates are CE). -/
def pad4 (n : Nat) : String :=
  if n < 10 then "000" ++ toString n
  else if n < 100 then "00" ++ toString n
  else if n < 1000 then "0" ++ toString n
  else toString n

/-- Python `dt.strftime('%Y-%m-%dT%H:%M:%S')`. -/
def strftimeIso (t : PyDateTime) : String :=
  pad4 t.date.year.toNat ++ "-" ++ pad2 t.date.month ++ "-" ++ pad2 t.date.day ++
    "T" ++ pad2 t.hour ++ ":" ++ pad2 t.minute ++ ":" ++ pad2 t.second

/-- `get_tomorrow_date_range(days_ahead)` from api_client.py, with the wall
clock `now` made an explicit argument:
`target_date = datetime.now() + timedelta(days=days_ahead)`;
`start_datetime = target_date.replace(hour=0, minute=0, second=0)`;
`end_datetime = target_date.replace(hour=23, minute=59, second=59)`. -/
def get_tomorrow_date_range (now : PyDateTime) (days_ahead : Int) :
    PyDateTime × PyDateTime × PyDateTime :=
  let target_date := { now with date := addDays now.date days_ahead }
  let start_datetime := { target_date with hour := 0, minute := 0, second := 0 }
  let end_datetime := { target_date with hour := 23, minute := 59, second := 59 }
  (start_datetime, end_datetime, target_date)

/-! ## Configuration (config.py) -/

/-- The default of `DEFAULT_CUSTOMER_ID` in config.py (the `os.getenv`
fallback; the environment override is external input). -/
def DEFAULT_CUSTOMER_ID : String :=
  "ORG-714892, ORG-655338, ORG-601372, ORG-536926, ORG-629731, ORG-625900, ORG-685351, ORG-582188, ORG-646997, ORG-616507, ORG-55783, ORG-723580"

/-- `[cid.strip() for cid in s.split(',')]` — the Customer ID Registry applied
to an arbitrary configuration string. -/
def customerIds (s : String) : List String :=
  (splitComma s.data).map (fun cs => String.mk (stripChars cs))

/-- `CUSTOMER_IDS` from api_client.py. -/
def CUSTOMER_IDS : List String :=
  customerIds DEFAULT_CUSTOMER_ID

/-! ## Outbound order fetchers: request payloads -/

/-- The request payload `get_outbound_orders` builds for one customer
(statuses, stripped customer id, order types, paging, then the date-window
fields keyed on the stripped customer id). -/
def outboundOrderPayload (ts te : PyDateTime) (customer_id : String) :
    List (String × Value) :=
  let base : List (String × Value) :=
    [("statuses", .list [.str "Imported", .str "Open", .str "Planning",
        .str "Planned", .str "Committed"]),
     ("customerId", .str (pyStrip customer_id)),
     ("orderTypes", .list [.str "Regular Order"]),
     ("paging", .dict [("pageNo", .num 1), ("limit", .num 1000)])]
  if pyStrip customer_id = "ORG-685351" then
    base ++ [("appointmentTimeFrom", .str (strftimeIso ts)),
             ("appointmentTimeTo", .str (strftimeIso te))]
  else
    base ++ [("targetCompletionDateFrom", .str (strftimeIso ts)),
             ("targetCompletionDateTo", .str (strftimeIso te))]

/-- The request payload `get_picked_outbound_orders` builds for one customer;
it differs from `outboundOrderPayload` in the `statuses` entry. -/
def pickedOrderPayload (ts te : PyDateTime) (customer_id : String) :
    List (String × Value) :=
  let base : List (String × Value) :=
    [("statuses", .list [.str "Picked", .str "Packed", .str "Staged"]),
     ("customerId", .str (pyStrip customer_id)),
     ("orderTypes", .list [.str "Regular Order"]),
     ("paging", .dict [("pageNo", .num 1), ("limit", .num 1000)])]
  if pyStrip customer_id = "ORG-685351" then
    base ++ [("appointmentTimeFrom", .str (strftimeIso ts)),
             ("appointmentTimeTo", .str (strftimeIso te))]
  else
    base ++ [("targetCompletionDateFrom", .str (strftimeIso ts)),
             ("targetCompletionDateTo", .str (strftimeIso te))]

/-! ## Outbound order fetchers: response normalization -/

/-- The inner `try` of `get_outbound_orders`:
`pallet_qty = float(order.get('Pallet QTY', 0)) or 0` then
`order_qty = float(order.get('Order QTY', 0)) or 0` then
`picking_type = order.get('Picking Type', '')`; a ValueError/TypeError from
either conversion lands in the handler that sets
`pallet_qty = order_qty = 0; picking_type = ''`. -/
def outboundQtys (fs : List (String × Value)) : Rat × Rat × Value :=
  match pyFloat (pyDictGet fs "Pallet QTY" (.num 0)) with
  | none => (0, 0, .str "")
  | some p =>
    match pyFloat (pyDictGet fs "Order QTY" (.num 0)) with
    | none => (0, 0, .str "")
    | some o => (orZero p, orZero o, pyDictGet fs "Picking Type" (.str ""))

/-- The inner `try` of `get_picked_outbound_orders`: the two quantity
conversions with the same shared exception handler, and no picking type. -/
def pickedQtys (fs : List (String × Value)) : Rat × Rat :=
  match pyFloat (pyDictGet fs "Pallet QTY" (.num 0)) with
  | none => (0, 0)
  | some p =>
    match pyFloat (pyDictGet fs "Order QTY" (.num 0)) with
    | none => (0, 0)
    | some o => (orZero p, orZero o)

/-- The dict `get_outbound_orders` appends to `all_processed_orders` for one
raw order entry (a dict `fs`), queried as `customer_id`. -/
def processOrderOutbound (customer_id : String) (fs : List (String × Value)) :
    List (String × Value) :=
  let q := outboundQtys fs
  [("order_no", pyDictGet fs "Order No." .null),
   ("status", pyDictGet fs "Order Status" (.str "Unknown")),
   ("customer", .str customer_id),
   ("ship_to", pyDictGet fs "Ship to" (.str "Unknown")),
   ("state", pyDictGet fs "State" (.str "Unknown")),
   ("reference_no", pyDictGet fs "Reference Number" (.str "")),
   ("target_completion_date", pyDictGet fs "Target Completion Date" (.str "")),
   ("pallet_qty", .num q.1),
   ("order_qty", .num q.2.1),
   ("Picking Type", q.2.2)]

/-- The dict `get_picked_outbound_orders` appends for one raw order entry. -/
def processOrderPicked (customer_id : String) (fs : List (String × Value)) :
    List (String × Value) :=
  let q := pickedQtys fs
  [("order_no", pyDictGet fs "Order No." .null),
   ("status", pyDictGet fs "Order Status" (.str "Unknown")),
   ("customer", .str customer_id),
   ("ship_to", pyDictGet fs "Ship to" (.str "Unknown")),
   ("state", pyDictGet fs "State" (.str "Unknown")),
   ("reference_no", pyDictGet fs "Reference Number" (.str "")),
   ("target_completion_date", pyDictGet fs "Target Completion Date" (.str "")),
   ("pallet_qty", .num q.1),
   ("order_qty", .num q.2)]

/-- The `for order in orders` loop of `get_outbound_orders`.  A non-dict entry
raises AttributeError at its first `order.get` — an exception the inner
`except (ValueError, TypeError)` does not catch — so the outer per-customer
handler fires and the customer's loop stops, keeping the records already
appended. -/
def processOrdersOutbound (customer_id : String) : List Value → List (List (String × Value))
  | [] => []
  | .dict fs :: rest => processOrderOutbound customer_id fs :: processOrdersOutbound customer_id rest
  | _ :: _ => []

/-- The `for order in orders` loop of `get_picked_outbound_orders`. -/
def processOrdersPicked (customer_id : String) : List Value → List (List (String × Value))
  | [] => []
  | .dict fs :: rest => processOrderPicked customer_id fs :: processOrdersPicked customer_id rest
  | _ :: _ => []

/-- `orders = data.get('results', {}).get('data', [])`.  When the chain does
not produce a list, iterating the result appends no record before the outer
handler fires (numbers/None are not iterable; iterating a string or a dict
yields strings, whose first `.get` raises), so the loop input is modelled as
the empty list in every non-list case. -/
def ordersOf (data : Value) : List Value :=
  match data with
  | .dict fs =>
    match pyDictGet fs "results" (.dict []) with
    | .dict rs =>
      match pyDictGet rs "data" (.list []) with
      | .list os => os
      | _ => []
    | _ => []
  | _ => []

/-- The per-customer loop of `get_outbound_orders` over the configured
customer list: one request per customer (the oracle `resp` gives the JSON
response, or `none` for a transport error / non-success status), the
response's orders normalized and appended in order; a failed customer
appends nothing and the loop continues. -/
def get_outbound_orders (resp : String → Option Value) : List String → List (List (String × Value))
  | [] => []
  | cid :: rest =>
    (match resp cid with
     | none => []
     | some data => processOrdersOutbound cid (ordersOf data)) ++ get_outbound_orders resp rest

/-- The per-customer loop of `get_picked_outbound_orders`. -/
def get_picked_outbound_orders (resp : String → Option Value) : List String → List (List (String × Value))
  | [] => []
  | cid :: rest =>
    (match resp cid with
     | none => []
     | some data => processOrdersPicked cid (ordersOf data)) ++ get_picked_outbound_orders resp rest

/-! ## Equipment detail fetcher -/

/-- The dict `get_equipment_details` appends for one equipment entry. -/
def equipRecord (customer_id : String) (fs : List (String × Value)) :
    List (String × Value) :=
  [("equipmentNo", pyDictGet fs "equipmentNo" (.str "")),
   ("receiptIds", pyDictGet fs "receiptIds" (.list [])),
   ("status", pyDictGet fs "status" (.str "")),
   ("location", pyDictGet fs "currentLocation" (.str "")),
   ("customerId", .str customer_id)]

/-- One equipment entry of the response list: skipped unless it is a dict
(`isinstance(equipment, dict)`) whose `receiptIds` (default `[]`) is truthy. -/
def processEquipmentEntry (customer_id : String) : Value → Option (List (String × Value))
  | .dict fs =>
    if truthy (pyDictGet fs "receiptIds" (.list [])) then some (equipRecord customer_id fs)
    else none
  | _ => none

/-- The response handling of `get_equipment_details` for one customer: a
non-list response is logged and skipped (`continue`), a list is scanned
entry by entry. -/
def processEquipmentData (customer_id : String) (data : Value) :
    List (List (String × Value)) :=
  match data with
  | .list es => es.filterMap (processEquipmentEntry customer_id)
  | _ => []

/-- The per-customer loop of `get_equipment_details`. -/
def get_equipment_details (resp : String → Option Value) : List String → List (List (String × Value))
  | [] => []
  | cid :: rest =>
    (match resp cid with
     | none => []
     | some data => processEquipmentData cid data) ++ get_equipment_details resp rest

/-! ## Priority report fetcher

The spreadsheet download and `pandas` are external collaborators: a workbook
is modelled as an association list from sheet name to table (the table type is
abstract), `pd.ExcelFile(...).sheet_names` as the list of its keys, and
`pd.read_excel` as lookup — raising ValueError (modelled `none`) when a
requested sheet name is absent, and returning a name-keyed dict (duplicate
requested names collapse, as dict keys do) when all are present. -/

/-- `pd.ExcelFile(excel_file).sheet_names`. -/
def sheetNames {α : Type} (sheets : List (String × α)) : List String :=
  sheets.map Prod.fst

/-- Drop later duplicates of earlier strings (dict-key collapsing), keeping
first positions; `seen` are the keys already emitted. -/
def dedupKeysGo (seen : List String) : List String → List String
  | [] => []
  | n :: t => if memStr n seen then dedupKeysGo seen t else n :: dedupKeysGo (n :: seen) t

/-- `pd.read_excel(f, sheet_name=names)`: `none` when a requested name is
missing (ValueError), otherwise the dict mapping each requested name to its
table. -/
def readSheets {α : Type} (sheets : List (String × α)) (names : List String) :
    Option (List (String × α)) :=
  if names.all (fun n => (assocGet sheets n).isSome) then
    some ((dedupKeysGo [] names).filterMap (fun n => (assocGet sheets n).map (fun t => (n, t))))
  else none

/-- The value `get_priority_report` returns once the download succeeded:
nothing, a single table, or a dict of tables. -/
inductive ReportResult (α : Type) where
  | noResult
  | single (t : α)
  | multi (m : List (String × α))

/-- The table of a multi-sheet result under a given sheet name. -/
def multiLookup {α : Type} : ReportResult α → String → Option α
  | .multi m, k => assocGet m k
  | _, _ => none

/-- Is the result a dict of tables? -/
def isMulti {α : Type} : ReportResult α → Bool
  | .multi _ => true
  | _ => false

/-- The sheet-selection logic of `get_priority_report(sheet_name)` on a
downloaded workbook.  For `'all'`: try the exact pair `['RG Outbound',
'Inbound']`, and on ValueError fall back to the first sheet names containing
`'outbound'` resp. `'inbound'` case-insensitively.  Otherwise: default an
absent or empty selector to `'RG Outbound'`; if the name is not present,
search for the first sheet containing `'outbound'` or `'inbound'` — whichever
the (defaulted) name contains, `'inbound'` when neither; return its table when
the search succeeded (`if target_sheet and target_sheet in available_sheets`),
else nothing. -/
def get_priority_report {α : Type} (sheets : List (String × α))
    (sheet_name : Option String) : ReportResult α :=
  let available := sheetNames sheets
  if sheet_name = some "all" then
    match readSheets sheets ["RG Outbound", "Inbound"] with
    | some m => .multi m
    | none =>
      match available.find? (fun s => occursIn "outbound".data (pyLower s).data),
            available.find? (fun s => occursIn "inbound".data (pyLower s).data) with
      | some outbound_sheet, some inbound_sheet =>
        match readSheets sheets [outbound_sheet, inbound_sheet] with
        | some m => .multi m
        | none => .noResult
      | _, _ => .noResult
  else
    let target0 :=
      match sheet_name with
      | none => "RG Outbound"
      | some s => if s = "" then "RG Outbound" else s
    let target1 : Option String :=
      if memStr target0 available then some target0
      else
        available.find? (fun s =>
          occursIn (if occursIn "outbound".data (pyLower target0).data
                    then "outbound".data else "inbound".data) (pyLower s).data)
    match target1 with
    | some t =>
      if !t.isEmpty && memStr t available then
        match assocGet sheets t with
        | some tbl => .single tbl
        | none => .noResult
      else .noResult
    | none => .noResult

/-- First available sheet whose name contains `outbound` case-insensitively
(the fallback search of the `'all'` branch). -/
def findOutboundSheet {α : Type} (sheets : List (String × α)) : Option String :=
  (sheetNames sheets).find? (fun s => occursIn "outbound".data (pyLower s).data)

/-- First available sheet whose name contains `inbound` case-insensitively. -/
def findInboundSheet {α : Type} (sheets : List (String × α)) : Option String :=
  (sheetNames sheets).find? (fun s => occursIn "inbound".data (pyLower s).data)

/-- The spec-side notion for C6: the entry's receipt-id list (default empty)
is non-empty. -/
def hasNonemptyReceipts (fs : List (String × Value)) : Bool :=
  match pyDictGet fs "receiptIds" (.list []) with
  | .list (_ :: _) => true
  | _ => false

/-! ## Concrete inputs used to instantiate the theorems -/

/-- A fixed wall-clock instant (with a nonzero microsecond field, as
`datetime.now()` virtually always returns). -/
def sampleNow : PyDateTime := ⟨⟨2026, 10, 12⟩, 14, 30, 5, 123456⟩

/-- A raw order whose `Pallet QTY` is unparsable while its `Order QTY` is the
parsable string `"7"`. -/
def cexOrderFields : List (String × Value) :=
  [("Pallet QTY", .str "abc"), ("Order QTY", .str "7")]

/-- A fully regular raw order. -/
def sampleOrderFields : List (String × Value) :=
  [("Order No.", .str "SO-1"), ("Order Status", .str "Open"),
   ("Pallet QTY", .str "3"), ("Order QTY", .str "7")]

/-- An order-status-report response carrying one order. -/
def sampleResponse : Value :=
  .dict [("results", .dict [("data", .list [.dict sampleOrderFields])])]

/-- A transport oracle where customer "B" fails and every other customer
receives `sampleResponse`. -/
def sampleResp : String → Option Value :=
  fun cid => if cid = "B" then none else some sampleResponse

/-- Two equipment entries: one with an empty receipt-id list, one with a
non-empty one. -/
def sampleEquipment : List (List (String × Value)) :=
  [[("equipmentNo", .str "E1"), ("receiptIds", .list [])],
   [("equipmentNo", .str "E2"), ("receiptIds", .list [.str "R1"])]]

/-- A workbook whose sheet names only approximate the standard ones. -/
def sampleSheets : List (String × Nat) := [("RGOutbound", 1), ("InboundDock", 2)]

/-- A workbook used to separate the empty-selector behavior from the claim's
prediction: it has an "outbound"-matching sheet and an "inbound"-matching
sheet. -/
def cexSheets : List (String × Nat) := [("My Outbound", 1), ("Inbound Dock", 2)]

/-! ## Helper lemmas -/

theorem splitComma_ne_nil : ∀ l : List Char, splitComma l ≠ [] := by
  intro l
  match l with
  | [] => simp [splitComma]
  | c :: rest =>
    simp only [splitComma]
    by_cases h : c = ','
    · simp [h]
    · simp only [if_neg h]
      cases hs : splitComma rest <;> simp

theorem joinComma_splitComma : ∀ l : List Char, joinComma (splitComma l) = l := by
  intro l
  induction l with
  | nil => rfl
  | cons c rest ih =>
    simp only [splitComma]
    by_cases h : c = ','
    · subst h
      simp only [if_pos rfl]
      obtain ⟨hh, t, hs⟩ : ∃ hh t, splitComma rest = hh :: t := by
        cases hs : splitComma rest with
        | nil => exact absurd hs (splitComma_ne_nil rest)
        | cons a b => exact ⟨a, b, rfl⟩
      rw [hs] at ih ⊢
      simpa [joinComma] using ih
    · simp only [if_neg h]
      obtain ⟨hh, t, hs⟩ : ∃ hh t, splitComma rest = hh :: t := by
        cases hs : splitComma rest with
        | nil => exact absurd hs (splitComma_ne_nil rest)
        | cons a b => exact ⟨a, b, rfl⟩
      rw [hs] at ih ⊢
      cases t with
      | nil => simpa [joinComma] using congrArg (c :: ·) ih
      | cons t0 t1 => simpa [joinComma] using congrArg (c :: ·) ih

theorem dropWhile_head?_not {α : Type} (p : α → Bool) :
    ∀ (l : List α) (c : α), (l.dropWhile p).head? = some c → p c = false := by
  intro l
  induction l with
  | nil => intro c h; simp [List.dropWhile] at h
  | cons x xs ih =>
    intro c h
    by_cases hp : p x
    · rw [List.dropWhile_cons_of_pos hp] at h
      exact ih c h
    · rw [List.dropWhile_cons_of_neg hp] at h
      simp only [List.head?_cons, Option.some.injEq] at h
      subst h
      simpa using hp

theorem getLast?_dropWhile {α : Type} (p : α → Bool) :
    ∀ l : List α, l.dropWhile p ≠ [] → (l.dropWhile p).getLast? = l.getLast? := by
  intro l
  induction l with
  | nil => intro h; simp [List.dropWhile] at h
  | cons x xs ih =>
    intro h
    by_cases hp : p x
    · rw [List.dropWhile_cons_of_pos hp] at h ⊢
      have hxs : xs ≠ [] := by
        intro he; rw [he] at h; simp [List.dropWhile] at h
      obtain ⟨y, t, rfl⟩ : ∃ y t, xs = y :: t := by
        cases xs with
        | nil => exact absurd rfl hxs
        | cons a b => exact ⟨a, b, rfl⟩
      rw [ih h, List.getLast?_cons_cons]
    · rw [List.dropWhile_cons_of_neg hp]

theorem stripChars_decomposition (l : List Char) :
    ∃ a b, l = a ++ stripChars l ++ b ∧
      (∀ c ∈ a, isPySpace c = true) ∧ (∀ c ∈ b, isPySpace c = true) := by
  refine ⟨l.takeWhile isPySpace,
    ((l.dropWhile isPySpace).reverse.takeWhile isPySpace).reverse, ?_, ?_, ?_⟩
  · have h1 := List.takeWhile_append_dropWhile (p := isPySpace)
      (l := (l.dropWhile isPySpace).reverse)
    have h2 := congrArg List.reverse h1
    rw [List.reverse_append, List.reverse_reverse] at h2
    conv_lhs => rw [← List.takeWhile_append_dropWhile (p := isPySpace) (l := l)]
    rw [List.append_assoc]
    congr 1
    exact h2.symm
  · intro c hc
    exact List.mem_takeWhile_imp hc
  · intro c hc
    rw [List.mem_reverse] at hc
    exact List.mem_takeWhile_imp hc

theorem stripChars_head_not_space (l : List Char) :
    ∀ c, (stripChars l).head? = some c → isPySpace c = false := by
  intro c h
  simp only [stripChars] at h
  rw [List.head?_reverse] at h
  have hne : (l.dropWhile isPySpace).reverse.dropWhile isPySpace ≠ [] := by
    intro he
    rw [he] at h
    simp at h
  rw [getLast?_dropWhile _ _ hne, List.getLast?_reverse] at h
  exact dropWhile_head?_not _ l c h

theorem stripChars_getLast_not_space (l : List Char) :
    ∀ c, (stripChars l).getLast? = some c → isPySpace c = false := by
  intro c h
  simp only [stripChars] at h
  rw [List.getLast?_reverse] at h
  exact dropWhile_head?_not _ _ c h

/-! ## Claim theorems -/

/-- C7: for every integer day offset `n` and wall clock `now`,
`get_tomorrow_date_range` returns a start and an end on the same calendar
date — the current date plus `n` days — with the start's time of day
00:00:00, the end's 23:59:59, and the end strictly after the start. -/
theorem tomorrow_date_range_window (now : PyDateTime) (n : Int) :
    (get_tomorrow_date_range now n).1.date = addDays now.date n ∧
    (get_tomorrow_date_range now n).2.1.date = (get_tomorrow_date_range now n).1.date ∧
    (get_tomorrow_date_range now n).1.hour = 0 ∧
    (get_tomorrow_date_range now n).1.minute = 0 ∧
    (get_tomorrow_date_range now n).1.second = 0 ∧
    (get_tomorrow_date_range now n).2.1.hour = 23 ∧
    (get_tomorrow_date_range now n).2.1.minute = 59 ∧
    (get_tomorrow_date_range now n).2.1.second = 59 ∧
    dtBefore (get_tomorrow_date_range now n).1 (get_tomorrow_date_range now n).2.1 := by
  refine ⟨rfl, rfl, rfl, rfl, rfl, rfl, rfl, rfl, ?_⟩
  refine Or.inr ⟨rfl, Or.inr ⟨rfl, Or.inr ⟨rfl, ?_⟩⟩⟩
  simp only [get_tomorrow_date_range, timeMicro]
  omega

/-- C8: the Customer ID Registry yields exactly the comma-separated tokens of
the configuration string, in order and with duplicates kept (joining the
split pieces with commas restores the string), each token trimmed of its
surrounding whitespace (the trimmed token is the piece less a whitespace
prefix and suffix, and neither starts nor ends with whitespace); in
particular "A, B,C " yields ["A", "B", "C"] and "" yields [""]. -/
theorem customer_id_registry_spec :
    (∀ s : String, joinComma (splitComma s.data) = s.data) ∧
    (∀ l : List Char, ∃ a b, l = a ++ stripChars l ++ b ∧
      (∀ c ∈ a, isPySpace c = true) ∧ (∀ c ∈ b, isPySpace c = true) ∧
      (∀ c, (stripChars l).head? = some c → isPySpace c = false) ∧
      (∀ c, (stripChars l).getLast? = some c → isPySpace c = false)) ∧
    customerIds "A, B,C " = ["A", "B", "C"] ∧
    customerIds "" = [""] := by
  refine ⟨fun s => joinComma_splitComma s.data, fun l => ?_, by decide, by decide⟩
  obtain ⟨a, b, hl, ha, hb⟩ := stripChars_decomposition l
  exact ⟨a, b, hl, ha, hb, stripChars_head_not_space l, stripChars_getLast_not_space l⟩

/-- C2: for every customer id, both outbound fetchers build their request
with the order-type filter fixed to ["Regular Order"] and choose the
date-window field by account identity: the (stripped) customer id
"ORG-685351" gets appointmentTimeFrom/appointmentTimeTo bounds and no
target-completion bounds, every other customer id gets
targetCompletionDateFrom/targetCompletionDateTo bounds and no appointment
bounds, the bounds in both cases being the formatted start and end of the
computed tomorrow window. -/
theorem order_payload_date_window (now : PyDateTime) (cid : String) :
    let ts := (get_tomorrow_date_range now 1).1
    let te := (get_tomorrow_date_range now 1).2.1
    (pyStrip cid = "ORG-685351" →
      assocGet (outboundOrderPayload ts te cid) "appointmentTimeFrom" = some (.str (strftimeIso ts)) ∧
      assocGet (outboundOrderPayload ts te cid) "appointmentTimeTo" = some (.str (strftimeIso te)) ∧
      assocGet (outboundOrderPayload ts te cid) "targetCompletionDateFrom" = none ∧
      assocGet (outboundOrderPayload ts te cid) "targetCompletionDateTo" = none ∧
      assocGet (pickedOrderPayload ts te cid) "appointmentTimeFrom" = some (.str (strftimeIso ts)) ∧
      assocGet (pickedOrderPayload ts te cid) "appointmentTimeTo" = some (.str (strftimeIso te)) ∧
      assocGet (pickedOrderPayload ts te cid) "targetCompletionDateFrom" = none ∧
      assocGet (pickedOrderPayload ts te cid) "targetCompletionDateTo" = none) ∧
    (pyStrip cid ≠ "ORG-685351" →
      assocGet (outboundOrderPayload ts te cid) "targetCompletionDateFrom" = some (.str (strftimeIso ts)) ∧
      assocGet (outboundOrderPayload ts te cid) "targetCompletionDateTo" = some (.str (strftimeIso te)) ∧
      assocGet (outboundOrderPayload ts te cid) "appointmentTimeFrom" = none ∧
      assocGet (outboundOrderPayload ts te cid) "appointmentTimeTo" = none ∧
      assocGet (pickedOrderPayload ts te cid) "targetCompletionDateFrom" = some (.str (strftimeIso ts)) ∧
      assocGet (pickedOrderPayload ts te cid) "targetCompletionDateTo" = some (.str (strftimeIso te)) ∧
      assocGet (pickedOrderPayload ts te cid) "appointmentTimeFrom" = none ∧
      assocGet (pickedOrderPayload ts te cid) "appointmentTimeTo" = none) ∧
    assocGet (outboundOrderPayload ts te cid) "orderTypes" = some (.list [.str "Regular Order"]) ∧
    assocGet (pickedOrderPayload ts te cid) "orderTypes" = some (.list [.str "Regular Order"]) := by
  intro ts te
  by_cases h : pyStrip cid = "ORG-685351"
  · refine ⟨fun _ => ?_, fun hn => absurd h hn, ?_, ?_⟩
    · simp only [outboundOrderPayload, pickedOrderPayload, if_pos h]
      exact ⟨rfl, rfl, rfl, rfl, rfl, rfl, rfl, rfl⟩
    · simp only [outboundOrderPayload, if_pos h]
      rfl
    · simp only [pickedOrderPayload, if_pos h]
      rfl
  · refine ⟨fun hy => absurd hy h, fun _ => ?_, ?_, ?_⟩
    · simp only [outboundOrderPayload, pickedOrderPayload, if_neg h]
      exact ⟨rfl, rfl, rfl, rfl, rfl, rfl, rfl, rfl⟩
    · simp only [outboundOrderPayload, if_neg h]
      rfl
    · simp only [pickedOrderPayload, if_neg h]
      rfl

/-- C2 witness: at the concrete instant `sampleNow`, the configured customer
"ORG-685351" receives appointment-time bounds and the configured customer
"ORG-714892" receives target-completion bounds. -/
theorem order_payload_date_window_witness :
    assocGet (outboundOrderPayload (get_tomorrow_date_range sampleNow 1).1
        (get_tomorrow_date_range sampleNow 1).2.1 "ORG-685351") "appointmentTimeFrom"
      = some (.str (strftimeIso (get_tomorrow_date_range sampleNow 1).1)) ∧
    assocGet (outboundOrderPayload (get_tomorrow_date_range sampleNow 1).1
        (get_tomorrow_date_range sampleNow 1).2.1 "ORG-714892") "targetCompletionDateFrom"
      = some (.str (strftimeIso (get_tomorrow_date_range sampleNow 1).1)) :=
  ⟨((order_payload_date_window sampleNow "ORG-685351").1 (by decide)).1,
   ((order_payload_date_window sampleNow "ORG-714892").2.1 (by decide)).1⟩

theorem get_equipment_details_append (resp : String → Option Value) (l1 l2 : List String) :
    get_equipment_details resp (l1 ++ l2) =
      get_equipment_details resp l1 ++ get_equipment_details resp l2 := by
  induction l1 with
  | nil => rfl
  | cons cid rest ih => simp [get_equipment_details, ih]

theorem get_outbound_orders_append (resp : String → Option Value) (l1 l2 : List String) :
    get_outbound_orders resp (l1 ++ l2) =
      get_outbound_orders resp l1 ++ get_outbound_orders resp l2 := by
  induction l1 with
  | nil => rfl
  | cons cid rest ih => simp [get_outbound_orders, ih]

theorem get_picked_outbound_orders_append (resp : String → Option Value) (l1 l2 : List String) :
    get_picked_outbound_orders resp (l1 ++ l2) =
      get_picked_outbound_orders resp l1 ++ get_picked_outbound_orders resp l2 := by
  induction l1 with
  | nil => rfl
  | cons cid rest ih => simp [get_picked_outbound_orders, ih]

/-- C3: in `get_equipment_details`, `get_outbound_orders` and
`get_picked_outbound_orders`, a request failure (transport error or
non-success HTTP status, i.e. `resp c = none`) for the customer at any one
position of the customer-id list contributes no records for that customer and
leaves the records of all customers before and after it unchanged: the output
for `pre ++ [c] ++ post` is exactly the output for `pre` followed by the
output for `post`.  The loop never aborts early and — the fetchers being
total functions — no exception propagates. -/
theorem per_customer_failure_isolated (resp : String → Option Value)
    (pre post : List String) (c : String) (h : resp c = none) :
    get_equipment_details resp (pre ++ c :: post) =
      get_equipment_details resp pre ++ get_equipment_details resp post ∧
    get_outbound_orders resp (pre ++ c :: post) =
      get_outbound_orders resp pre ++ get_outbound_orders resp post ∧
    get_picked_outbound_orders resp (pre ++ c :: post) =
      get_picked_outbound_orders resp pre ++ get_picked_outbound_orders resp post := by
  refine ⟨?_, ?_, ?_⟩
  · rw [get_equipment_details_append]
    simp [get_equipment_details, h]
  · rw [get_outbound_orders_append]
    simp [get_outbound_orders, h]
  · rw [get_picked_outbound_orders_append]
    simp [get_picked_outbound_orders, h]

/-- C3 witness: in a loop over ["A", "B", "C"] where the request for "B"
fails, all three fetchers return exactly the records of "A" followed by the
records of "C". -/
theorem per_customer_failure_isolated_witness :
    sampleResp "B" = none ∧
    get_equipment_details sampleResp ["A", "B", "C"] =
      get_equipment_details sampleResp ["A"] ++ get_equipment_details sampleResp ["C"] ∧
    get_outbound_orders sampleResp ["A", "B", "C"] =
      get_outbound_orders sampleResp ["A"] ++ get_outbound_orders sampleResp ["C"] ∧
    get_picked_outbound_orders sampleResp ["A", "B", "C"] =
      get_picked_outbound_orders sampleResp ["A"] ++ get_picked_outbound_orders sampleResp ["C"] :=
  ⟨rfl, per_customer_failure_isolated sampleResp ["A"] ["C"] "B" rfl⟩

theorem processEquipmentData_eq (cid : String) : ∀ es : List (List (String × Value)),
    (∀ fs ∈ es, ∃ rl, pyDictGet fs "receiptIds" (.list []) = .list rl) →
    processEquipmentData cid (.list (es.map .dict)) =
      (es.filter hasNonemptyReceipts).map (equipRecord cid) := by
  intro es
  induction es with
  | nil => intro _; rfl
  | cons fs rest ih =>
    intro h
    obtain ⟨rl, hrl⟩ := h fs (List.mem_cons_self fs rest)
    have ihr := ih (fun g hg => h g (List.mem_cons_of_mem fs hg))
    simp only [processEquipmentData] at ihr ⊢
    cases rl with
    | nil =>
      simp [List.filterMap_cons, List.filter_cons, processEquipmentEntry, hrl,
        truthy, hasNonemptyReceipts, ihr]
    | cons r0 rt =>
      simp [List.filterMap_cons, List.filter_cons, processEquipmentEntry, hrl,
        truthy, hasNonemptyReceipts, ihr]

/-- C6: for a list-shaped equipment response whose entries are dicts carrying
a (possibly absent, list-valued) `receiptIds` field, `get_equipment_details`
emits a record exactly for the entries whose receipt-id list is non-empty —
in order, one record per such entry — and every emitted record's `customerId`
field is the customer id used for the query. -/
theorem equipment_receipt_filter (cid : String) (es : List (List (String × Value)))
    (h : ∀ fs ∈ es, ∃ rl, pyDictGet fs "receiptIds" (.list []) = .list rl) :
    processEquipmentData cid (.list (es.map .dict)) =
      (es.filter hasNonemptyReceipts).map (equipRecord cid) ∧
    ∀ r ∈ processEquipmentData cid (.list (es.map .dict)),
      assocGet r "customerId" = some (.str cid) := by
  have main := processEquipmentData_eq cid es h
  refine ⟨main, ?_⟩
  intro r hr
  rw [main] at hr
  obtain ⟨fs, _, rfl⟩ := List.mem_map.mp hr
  rfl

/-- C6 witness: of the two `sampleEquipment` entries, the one with the empty
receipt-id list is excluded and the one with a non-empty list is included,
tagged with the querying account "ORG-1". -/
theorem equipment_receipt_filter_witness :
    processEquipmentData "ORG-1" (.list (sampleEquipment.map .dict)) =
      (sampleEquipment.filter hasNonemptyReceipts).map (equipRecord "ORG-1") ∧
    ∀ r ∈ processEquipmentData "ORG-1" (.list (sampleEquipment.map .dict)),
      assocGet r "customerId" = some (.str "ORG-1") :=
  equipment_receipt_filter "ORG-1" sampleEquipment (by
    intro fs hfs
    simp only [sampleEquipment, List.mem_cons, List.not_mem_nil, or_false] at hfs
    rcases hfs with rfl | rfl
    · exact ⟨[], rfl⟩
    · exact ⟨[.str "R1"], rfl⟩)

theorem orZero_eq (q : Rat) : orZero q = q := by
  rw [orZero]
  split <;> simp_all

theorem processOrdersOutbound_length (cid : String) :
    ∀ os : List (List (String × Value)),
      (processOrdersOutbound cid (os.map .dict)).length = os.length := by
  intro os
  induction os with
  | nil => rfl
  | cons fs rest ih => simpa [processOrdersOutbound] using ih

theorem processOrdersPicked_length (cid : String) :
    ∀ os : List (List (String × Value)),
      (processOrdersPicked cid (os.map .dict)).length = os.length := by
  intro os
  induction os with
  | nil => rfl
  | cons fs rest ih => simpa [processOrdersPicked] using ih

theorem outboundQtys_of_fail (fs : List (String × Value))
    (h : pyFloat (pyDictGet fs "Pallet QTY" (.num 0)) = none ∨
      pyFloat (pyDictGet fs "Order QTY" (.num 0)) = none) :
    outboundQtys fs = (0, 0, .str "") := by
  rcases h with h | h
  · simp [outboundQtys, h]
  · cases hP : pyFloat (pyDictGet fs "Pallet QTY" (.num 0)) with
    | none => simp [outboundQtys, hP]
    | some p => simp [outboundQtys, hP, h]

theorem pickedQtys_of_fail (fs : List (String × Value))
    (h : pyFloat (pyDictGet fs "Pallet QTY" (.num 0)) = none ∨
      pyFloat (pyDictGet fs "Order QTY" (.num 0)) = none) :
    pickedQtys fs = (0, 0) := by
  rcases h with h | h
  · simp [pickedQtys, h]
  · cases hP : pyFloat (pyDictGet fs "Pallet QTY" (.num 0)) with
    | none => simp [pickedQtys, hP]
    | some p => simp [pickedQtys, hP, h]

/-- C1 counterexample: a raw order with Pallet QTY = "abc" and Order QTY =
"7".  The per-field claim predicts order_qty keeps its parsed value 7; the
shared exception handler in fact resets it to 0 together with pallet_qty. -/
theorem quantity_fallback_counterexample :
    pyFloat (pyDictGet cexOrderFields "Order QTY" (.num 0)) = some 7 ∧
    assocGet (processOrderOutbound "ORG-714892" cexOrderFields) "order_qty" =
      some (.num 0) ∧
    ((0 : Rat) = 7 → False) := by
  exact ⟨by decide, rfl, by decide⟩

/-- C1 amended: a numeric quantity field that is missing defaults per-field
to 0, but an unparsable quantity (ValueError/TypeError in either conversion)
resets the whole quantity group of that record — pallet_qty, order_qty and,
in get_outbound_orders, the picking type — to the defaults (0, 0, "")
together; fields outside the group keep their values, the enclosing record
is never dropped (one normalized record per dict-shaped raw entry), and a
raw order whose Pallet QTY is "abc" yields pallet_qty = 0 rather than an
error. -/
theorem quantity_fallback_amended (cid : String) (fs : List (String × Value)) :
    (pyFloat (pyDictGet fs "Pallet QTY" (.num 0)) = none ∨
       pyFloat (pyDictGet fs "Order QTY" (.num 0)) = none →
      assocGet (processOrderOutbound cid fs) "pallet_qty" = some (.num 0) ∧
      assocGet (processOrderOutbound cid fs) "order_qty" = some (.num 0) ∧
      assocGet (processOrderOutbound cid fs) "Picking Type" = some (.str "") ∧
      assocGet (processOrderPicked cid fs) "pallet_qty" = some (.num 0) ∧
      assocGet (processOrderPicked cid fs) "order_qty" = some (.num 0)) ∧
    (∀ p q, pyFloat (pyDictGet fs "Pallet QTY" (.num 0)) = some p →
      pyFloat (pyDictGet fs "Order QTY" (.num 0)) = some q →
      assocGet (processOrderOutbound cid fs) "pallet_qty" = some (.num p) ∧
      assocGet (processOrderOutbound cid fs) "order_qty" = some (.num q) ∧
      assocGet (processOrderPicked cid fs) "pallet_qty" = some (.num p) ∧
      assocGet (processOrderPicked cid fs) "order_qty" = some (.num q)) ∧
    assocGet (processOrderOutbound cid fs) "status" =
      some (pyDictGet fs "Order Status" (.str "Unknown")) ∧
    assocGet (processOrderOutbound cid fs) "ship_to" =
      some (pyDictGet fs "Ship to" (.str "Unknown")) ∧
    (∀ os : List (List (String × Value)),
      (processOrdersOutbound cid (os.map .dict)).length = os.length ∧
      (processOrdersPicked cid (os.map .dict)).length = os.length) := by
  refine ⟨?_, ?_, rfl, rfl, fun os =>
    ⟨processOrdersOutbound_length cid os, processOrdersPicked_length cid os⟩⟩
  · intro h
    have h1 := outboundQtys_of_fail fs h
    have h2 := pickedQtys_of_fail fs h
    have e1 : assocGet (processOrderOutbound cid fs) "pallet_qty" =
        some (.num (outboundQtys fs).1) := rfl
    have e2 : assocGet (processOrderOutbound cid fs) "order_qty" =
        some (.num (outboundQtys fs).2.1) := rfl
    have e3 : assocGet (processOrderOutbound cid fs) "Picking Type" =
        some (outboundQtys fs).2.2 := rfl
    have e4 : assocGet (processOrderPicked cid fs) "pallet_qty" =
        some (.num (pickedQtys fs).1) := rfl
    have e5 : assocGet (processOrderPicked cid fs) "order_qty" =
        some (.num (pickedQtys fs).2) := rfl
    rw [h1] at e1 e2 e3
    rw [h2] at e4 e5
    exact ⟨e1, e2, e3, e4, e5⟩
  · intro p q hp hq
    have h1 : outboundQtys fs = (orZero p, orZero q, pyDictGet fs "Picking Type" (.str "")) := by
      simp [outboundQtys, hp, hq]
    have h2 : pickedQtys fs = (orZero p, orZero q) := by
      simp [pickedQtys, hp, hq]
    rw [orZero_eq, orZero_eq] at h1 h2
    have e1 : assocGet (processOrderOutbound cid fs) "pallet_qty" =
        some (.num (outboundQtys fs).1) := rfl
    have e2 : assocGet (processOrderOutbound cid fs) "order_qty" =
        some (.num (outboundQtys fs).2.1) := rfl
    have e4 : assocGet (processOrderPicked cid fs) "pallet_qty" =
        some (.num (pickedQtys fs).1) := rfl
    have e5 : assocGet (processOrderPicked cid fs) "order_qty" =
        some (.num (pickedQtys fs).2) := rfl
    rw [h1] at e1 e2
    rw [h2] at e4 e5
    exact ⟨e1, e2, e4, e5⟩

/-- C1 witness: the amended behavior at concrete inputs — Pallet QTY "abc"
gives pallet_qty 0 (record still produced), and on a fully parsable order the
quantities keep their parsed values 3 and 7. -/
theorem quantity_fallback_amended_witness :
    assocGet (processOrderOutbound "W" cexOrderFields) "pallet_qty" = some (.num 0) ∧
    assocGet (processOrderOutbound "W" sampleOrderFields) "pallet_qty" = some (.num 3) ∧
    assocGet (processOrderOutbound "W" sampleOrderFields) "order_qty" = some (.num 7) :=
  ⟨((quantity_fallback_amended "W" cexOrderFields).1 (Or.inl (by decide))).1,
   ((quantity_fallback_amended "W" sampleOrderFields).2.1 3 7 (by decide) (by decide)).1,
   ((quantity_fallback_amended "W" sampleOrderFields).2.1 3 7 (by decide) (by decide)).2.1⟩

theorem pyDictGet_none {fs : List (String × Value)} {k : String} (d : Value)
    (h : assocGet fs k = none) : pyDictGet fs k d = d := by
  simp [pyDictGet, h]

theorem outboundQtys_pallet_zero (fs : List (String × Value))
    (h : assocGet fs "Pallet QTY" = none) : (outboundQtys fs).1 = 0 := by
  have hp : pyFloat (pyDictGet fs "Pallet QTY" (.num 0)) = some 0 := by
    simp [pyDictGet, h, pyFloat]
  cases hq : pyFloat (pyDictGet fs "Order QTY" (.num 0)) with
  | none => rw [outboundQtys_of_fail fs (Or.inr hq)]
  | some q => simp [outboundQtys, hp, hq, orZero]

theorem outboundQtys_order_zero (fs : List (String × Value))
    (h : assocGet fs "Order QTY" = none) : (outboundQtys fs).2.1 = 0 := by
  have hq : pyFloat (pyDictGet fs "Order QTY" (.num 0)) = some 0 := by
    simp [pyDictGet, h, pyFloat]
  cases hp : pyFloat (pyDictGet fs "Pallet QTY" (.num 0)) with
  | none => rw [outboundQtys_of_fail fs (Or.inl hp)]
  | some p => simp [outboundQtys, hp, hq, orZero]

theorem pickedQtys_pallet_zero (fs : List (String × Value))
    (h : assocGet fs "Pallet QTY" = none) : (pickedQtys fs).1 = 0 := by
  have hp : pyFloat (pyDictGet fs "Pallet QTY" (.num 0)) = some 0 := by
    simp [pyDictGet, h, pyFloat]
  cases hq : pyFloat (pyDictGet fs "Order QTY" (.num 0)) with
  | none => rw [pickedQtys_of_fail fs (Or.inr hq)]
  | some q => simp [pickedQtys, hp, hq, orZero]

theorem pickedQtys_order_zero (fs : List (String × Value))
    (h : assocGet fs "Order QTY" = none) : (pickedQtys fs).2 = 0 := by
  have hq : pyFloat (pyDictGet fs "Order QTY" (.num 0)) = some 0 := by
    simp [pyDictGet, h, pyFloat]
  cases hp : pyFloat (pyDictGet fs "Pallet QTY" (.num 0)) with
  | none => rw [pickedQtys_of_fail fs (Or.inl hp)]
  | some p => simp [pickedQtys, hp, hq, orZero]

theorem outboundQtys_picking_default (fs : List (String × Value))
    (h : assocGet fs "Picking Type" = none) : (outboundQtys fs).2.2 = .str "" := by
  cases hp : pyFloat (pyDictGet fs "Pallet QTY" (.num 0)) with
  | none => rw [outboundQtys_of_fail fs (Or.inl hp)]
  | some p =>
    cases hq : pyFloat (pyDictGet fs "Order QTY" (.num 0)) with
    | none => rw [outboundQtys_of_fail fs (Or.inr hq)]
    | some q =>
      simp only [outboundQtys, hp, hq]
      simp [pyDictGet, h]

/-- C4 counterexample: on a raw order entry with no "Order No." key, the
normalized record's order_no is None (the `order.get('Order No.')` call has
no default), not "Unknown" and not the empty string. -/
theorem string_defaults_counterexample :
    assocGet (processOrderOutbound "ORG-714892" []) "order_no" = some Value.null ∧
    (Value.null = Value.str "Unknown" → False) ∧
    (Value.null = Value.str "" → False) :=
  ⟨rfl, fun h => Value.noConfusion h, fun h => Value.noConfusion h⟩

/-- C4 amended: in both outbound fetchers, each string field other than
order_no defaults as claimed when its source key is absent — status, ship_to
and state to "Unknown"; reference_no, target_completion_date and (in
get_outbound_orders) the picking type to the empty string — and each numeric
field absent from the raw entry defaults to 0; order_no, however, defaults to
None (null), not to a string. -/
theorem string_defaults_amended (cid : String) (fs : List (String × Value)) :
    (assocGet fs "Order No." = none →
      assocGet (processOrderOutbound cid fs) "order_no" = some .null ∧
      assocGet (processOrderPicked cid fs) "order_no" = some .null) ∧
    (assocGet fs "Order Status" = none →
      assocGet (processOrderOutbound cid fs) "status" = some (.str "Unknown") ∧
      assocGet (processOrderPicked cid fs) "status" = some (.str "Unknown")) ∧
    (assocGet fs "Ship to" = none →
      assocGet (processOrderOutbound cid fs) "ship_to" = some (.str "Unknown") ∧
      assocGet (processOrderPicked cid fs) "ship_to" = some (.str "Unknown")) ∧
    (assocGet fs "State" = none →
      assocGet (processOrderOutbound cid fs) "state" = some (.str "Unknown") ∧
      assocGet (processOrderPicked cid fs) "state" = some (.str "Unknown")) ∧
    (assocGet fs "Reference Number" = none →
      assocGet (processOrderOutbound cid fs) "reference_no" = some (.str "") ∧
      assocGet (processOrderPicked cid fs) "reference_no" = some (.str "")) ∧
    (assocGet fs "Target Completion Date" = none →
      assocGet (processOrderOutbound cid fs) "target_completion_date" = some (.str "") ∧
      assocGet (processOrderPicked cid fs) "target_completion_date" = some (.str "")) ∧
    (assocGet fs "Picking Type" = none →
      assocGet (processOrderOutbound cid fs) "Picking Type" = some (.str "")) ∧
    (assocGet fs "Pallet QTY" = none →
      assocGet (processOrderOutbound cid fs) "pallet_qty" = some (.num 0) ∧
      assocGet (processOrderPicked cid fs) "pallet_qty" = some (.num 0)) ∧
    (assocGet fs "Order QTY" = none →
      assocGet (processOrderOutbound cid fs) "order_qty" = some (.num 0) ∧
      assocGet (processOrderPicked cid fs) "order_qty" = some (.num 0)) := by
  refine ⟨fun h => ?_, fun h => ?_, fun h => ?_, fun h => ?_, fun h => ?_, fun h => ?_,
    fun h => ?_, fun h => ?_, fun h => ?_⟩
  · exact ⟨congrArg some (pyDictGet_none .null h), congrArg some (pyDictGet_none .null h)⟩
  · exact ⟨congrArg some (pyDictGet_none (.str "Unknown") h),
      congrArg some (pyDictGet_none (.str "Unknown") h)⟩
  · exact ⟨congrArg some (pyDictGet_none (.str "Unknown") h),
      congrArg some (pyDictGet_none (.str "Unknown") h)⟩
  · exact ⟨congrArg some (pyDictGet_none (.str "Unknown") h),
      congrArg some (pyDictGet_none (.str "Unknown") h)⟩
  · exact ⟨congrArg some (pyDictGet_none (.str "") h),
      congrArg some (pyDictGet_none (.str "") h)⟩
  · exact ⟨congrArg some (pyDictGet_none (.str "") h),
      congrArg some (pyDictGet_none (.str "") h)⟩
  · exact congrArg some (outboundQtys_picking_default fs h)
  · exact ⟨congrArg (fun q => some (Value.num q)) (outboundQtys_pallet_zero fs h),
      congrArg (fun q => some (Value.num q)) (pickedQtys_pallet_zero fs h)⟩
  · exact ⟨congrArg (fun q => some (Value.num q)) (outboundQtys_order_zero fs h),
      congrArg (fun q => some (Value.num q)) (pickedQtys_order_zero fs h)⟩

/-- C4 witness: on the empty raw order every default fires — status is
"Unknown", reference_no is "", pallet_qty is 0 (and order_no is null). -/
theorem string_defaults_amended_witness :
    assocGet (processOrderOutbound "W" []) "status" = some (.str "Unknown") ∧
    assocGet (processOrderOutbound "W" []) "reference_no" = some (.str "") ∧
    assocGet (processOrderOutbound "W" []) "pallet_qty" = some (.num 0) ∧
    assocGet (processOrderOutbound "W" []) "order_no" = some .null :=
  ⟨((string_defaults_amended "W" []).2.1 rfl).1,
   ((string_defaults_amended "W" []).2.2.2.2.1 rfl).1,
   ((string_defaults_amended "W" []).2.2.2.2.2.2.2.1 rfl).1,
   ((string_defaults_amended "W" []).1 rfl).1⟩

theorem pickedQtys_eq_outbound (fs : List (String × Value)) :
    pickedQtys fs = ((outboundQtys fs).1, (outboundQtys fs).2.1) := by
  cases hp : pyFloat (pyDictGet fs "Pallet QTY" (.num 0)) with
  | none => simp [pickedQtys, outboundQtys, hp]
  | some p =>
    cases hq : pyFloat (pyDictGet fs "Order QTY" (.num 0)) with
    | none => simp [pickedQtys, outboundQtys, hp, hq]
    | some q => simp [pickedQtys, outboundQtys, hp, hq]

theorem erase_picking (cid : String) (fs : List (String × Value)) :
    (processOrderOutbound cid fs).filter (fun p => p.1 != "Picking Type") =
      processOrderPicked cid fs := by
  simp only [processOrderOutbound, processOrderPicked]
  rw [pickedQtys_eq_outbound]
  rfl

theorem processOrders_erase (cid : String) : ∀ os : List Value,
    (processOrdersOutbound cid os).map (fun r => r.filter (fun p => p.1 != "Picking Type")) =
      processOrdersPicked cid os := by
  intro os
  induction os with
  | nil => rfl
  | cons o rest ih =>
    cases o with
    | dict fs =>
      simp only [processOrdersOutbound, processOrdersPicked, List.map_cons]
      rw [erase_picking, ih]
    | null => rfl
    | str s => rfl
    | num q => rfl
    | list xs => rfl

/-- C5 counterexample: on the same raw order entry (here the empty dict) the
two fetchers do not produce identically shaped records — the
get_outbound_orders record carries a tenth field, "Picking Type", which the
get_picked_outbound_orders record lacks. -/
theorem outbound_picked_shape_counterexample :
    (processOrderOutbound "A" []).length = 10 ∧
    (processOrderPicked "A" []).length = 9 ∧
    assocGet (processOrderOutbound "A" []) "Picking Type" = some (.str "") ∧
    assocGet (processOrderPicked "A" []) "Picking Type" = none ∧
    processOrderOutbound "A" [] ≠ processOrderPicked "A" [] := by
  refine ⟨rfl, rfl, rfl, rfl, fun h => absurd (congrArg List.length h) (by decide)⟩

/-- C5 amended: the two fetchers differ in the status filter sent
({"Imported","Open","Planning","Planned","Committed"} versus
{"Picked","Packed","Staged"}) and in that get_outbound_orders records carry
the extra "Picking Type" field: their request payloads agree on every other
entry, and for identical raw responses and the same customer list the
get_picked_outbound_orders output is exactly the get_outbound_orders output
with the "Picking Type" field removed from each record (all shared fields
identical). -/
theorem outbound_picked_refinement (resp : String → Option Value) (cs : List String) :
    ((get_outbound_orders resp cs).map (fun r => r.filter (fun p => p.1 != "Picking Type")) =
      get_picked_outbound_orders resp cs) ∧
    (∀ (ts te : PyDateTime) (cid : String),
      (outboundOrderPayload ts te cid).filter (fun p => p.1 != "statuses") =
        (pickedOrderPayload ts te cid).filter (fun p => p.1 != "statuses") ∧
      assocGet (outboundOrderPayload ts te cid) "statuses" =
        some (.list [.str "Imported", .str "Open", .str "Planning",
          .str "Planned", .str "Committed"]) ∧
      assocGet (pickedOrderPayload ts te cid) "statuses" =
        some (.list [.str "Picked", .str "Packed", .str "Staged"])) := by
  constructor
  · induction cs with
    | nil => rfl
    | cons cid rest ih =>
      simp only [get_outbound_orders, get_picked_outbound_orders, List.map_append]
      rw [ih]
      cases hr : resp cid with
      | none => rfl
      | some data => rw [processOrders_erase]
  · intro ts te cid
    by_cases h : pyStrip cid = "ORG-685351"
    · simp only [outboundOrderPayload, pickedOrderPayload, if_pos h]
      exact ⟨rfl, rfl, rfl⟩
    · simp only [outboundOrderPayload, pickedOrderPayload, if_neg h]
      exact ⟨rfl, rfl, rfl⟩

theorem assocGet_none_of_not_mem {α : Type} :
    ∀ (sheets : List (String × α)) (n : String),
      n ∉ sheetNames sheets → assocGet sheets n = none := by
  intro sheets
  induction sheets with
  | nil => intro n _; rfl
  | cons p rest ih =>
    intro n h
    rcases p with ⟨k, v⟩
    simp only [sheetNames, List.map_cons, List.mem_cons] at h
    push_neg at h
    rw [assocGet, if_neg (fun he => h.1 he.symm)]
    exact ih n h.2

theorem assocGet_isSome_of_mem {α : Type} :
    ∀ (sheets : List (String × α)) (n : String),
      n ∈ sheetNames sheets → ∃ t, assocGet sheets n = some t := by
  intro sheets
  induction sheets with
  | nil => intro n h; simp [sheetNames] at h
  | cons p rest ih =>
    intro n h
    rcases p with ⟨k, v⟩
    by_cases he : k = n
    · exact ⟨v, by rw [assocGet, if_pos he]⟩
    · simp only [sheetNames, List.map_cons, List.mem_cons] at h
      rcases h with h | h
      · exact absurd h.symm he
      · obtain ⟨t, ht⟩ := ih n h
        exact ⟨t, by rw [assocGet, if_neg he]; exact ht⟩

/-- C9: when the selector is "all" and the exact sheet names "RG Outbound"
and "Inbound" are both absent from the workbook, `get_priority_report` falls
back to a case-insensitive substring search for "outbound" and for "inbound"
over the available sheet names: when both searches succeed it returns a
multi-sheet result carrying both matched tables, and when either fails it
returns nothing. -/
theorem priority_report_all_fallback {α : Type} (sheets : List (String × α))
    (h1 : "RG Outbound" ∉ sheetNames sheets) (_h2 : "Inbound" ∉ sheetNames sheets) :
    ((findOutboundSheet sheets = none ∨ findInboundSheet sheets = none) →
      get_priority_report sheets (some "all") = .noResult) ∧
    (∀ o i, findOutboundSheet sheets = some o → findInboundSheet sheets = some i →
      isMulti (get_priority_report sheets (some "all")) = true ∧
      multiLookup (get_priority_report sheets (some "all")) o = assocGet sheets o ∧
      multiLookup (get_priority_report sheets (some "all")) i = assocGet sheets i) := by
  have ha1 : assocGet sheets "RG Outbound" = none := assocGet_none_of_not_mem sheets _ h1
  have hread : readSheets sheets ["RG Outbound", "Inbound"] = none := by
    simp [readSheets, ha1]
  have hstep : get_priority_report sheets (some "all") =
      (match findOutboundSheet sheets, findInboundSheet sheets with
       | some o, some i =>
         (match readSheets sheets [o, i] with
          | some m => ReportResult.multi m
          | none => ReportResult.noResult)
       | _, _ => ReportResult.noResult) := by
    simp [get_priority_report, hread, findOutboundSheet, findInboundSheet]
  constructor
  · intro h
    rcases h with h | h
    · rw [hstep, h]
    · rw [hstep, h]
      cases findOutboundSheet sheets <;> rfl
  · intro o i ho hi
    obtain ⟨tbo, hto⟩ := assocGet_isSome_of_mem sheets o (List.mem_of_find?_eq_some ho)
    obtain ⟨tbi, hti⟩ := assocGet_isSome_of_mem sheets i (List.mem_of_find?_eq_some hi)
    rw [hstep, ho, hi]
    show isMulti (match readSheets sheets [o, i] with
        | some m => ReportResult.multi m
        | none => ReportResult.noResult) = true ∧
      multiLookup (match readSheets sheets [o, i] with
        | some m => ReportResult.multi m
        | none => ReportResult.noResult) o = assocGet sheets o ∧
      multiLookup (match readSheets sheets [o, i] with
        | some m => ReportResult.multi m
        | none => ReportResult.noResult) i = assocGet sheets i
    by_cases hoi : o = i
    · subst hoi
      have hr2 : readSheets sheets [o, o] = some [(o, tbo)] := by
        simp [readSheets, hto, dedupKeysGo, memStr]
      rw [hr2]
      refine ⟨rfl, ?_, ?_⟩ <;>
        simp [multiLookup, assocGet, hto]
    · have hr2 : readSheets sheets [o, i] = some [(o, tbo), (i, tbi)] := by
        simp [readSheets, hto, hti, dedupKeysGo, memStr, hoi]
      rw [hr2]
      refine ⟨rfl, ?_, ?_⟩
      · simp [multiLookup, assocGet, hto]
      · simp [multiLookup, assocGet, hoi, hti]

/-- C9 witness: with sheets named "RGOutbound" and "InboundDock" (the exact
names absent), the selector "all" still returns a multi-sheet result carrying
both tables. -/
theorem priority_report_all_fallback_witness :
    isMulti (get_priority_report sampleSheets (some "all")) = true ∧
    multiLookup (get_priority_report sampleSheets (some "all")) "RGOutbound" = some 1 ∧
    multiLookup (get_priority_report sampleSheets (some "all")) "InboundDock" = some 2 := by
  have h := (priority_report_all_fallback sampleSheets (by decide) (by decide)).2
    "RGOutbound" "InboundDock" rfl rfl
  exact ⟨h.1, h.2.1.trans rfl, h.2.2.trans rfl⟩

theorem memStr_eq_false {x : String} : ∀ {l : List String}, x ∉ l → memStr x l = false := by
  intro l
  induction l with
  | nil => intro _; rfl
  | cons y t ih =>
    intro h
    rw [memStr, if_neg]
    · exact ih (fun hm => h (List.mem_cons_of_mem y hm))
    · intro he
      exact h (he ▸ List.mem_cons_self y t)

theorem memStr_eq_true {x : String} : ∀ {l : List String}, x ∈ l → memStr x l = true := by
  intro l
  induction l with
  | nil => intro h; simp at h
  | cons y t ih =>
    intro h
    by_cases he : y = x
    · rw [memStr, if_pos he]
    · rw [memStr, if_neg he]
      rcases List.mem_cons.mp h with rfl | hm
      · exact absurd rfl he
      · exact ih hm

/-- C10 counterexample: calling `get_priority_report` with the specific sheet
name "" — a name that is not among the sheets and contains neither "outbound"
nor "inbound" — does not search for "inbound": the empty selector is replaced
by the default "RG Outbound", whose search term is "outbound", so the result
is the "My Outbound" table (1), not the first "inbound"-matching table (2)
the claim predicts. -/
theorem priority_report_specific_counterexample :
    get_priority_report cexSheets (some "") = .single 1 ∧
    memStr "" (sheetNames cexSheets) = false ∧
    occursIn "outbound".data (pyLower "").data = false ∧
    occursIn "inbound".data (pyLower "").data = false ∧
    (sheetNames cexSheets).find? (fun s => occursIn "inbound".data (pyLower s).data) =
      some "Inbound Dock" ∧
    assocGet cexSheets "Inbound Dock" = some 2 ∧
    ((ReportResult.single 1 : ReportResult Nat) = .single 2 → False) := by
  refine ⟨rfl, rfl, rfl, rfl, rfl, rfl, fun h => ?_⟩
  injection h with h1
  exact absurd h1 (by decide)

/-- C10 amended: for a non-empty specific sheet name other than "all" that is
not among the available sheets and contains neither "outbound" nor "inbound"
case-insensitively, the fallback search term is "inbound": the function
returns the table of the first available sheet containing "inbound"
case-insensitively, and nothing if no such sheet exists.  (The empty string
is not such a selector: it is falsy, so the code replaces it with the default
"RG Outbound", whose search term is "outbound".) -/
theorem priority_report_specific_fallback {α : Type} (sheets : List (String × α))
    (name : String) (hall : name ≠ "all") (hne : name ≠ "")
    (hmem : name ∉ sheetNames sheets)
    (hout : occursIn "outbound".data (pyLower name).data = false)
    (_hin : occursIn "inbound".data (pyLower name).data = false) :
    (findInboundSheet sheets = none → get_priority_report sheets (some name) = .noResult) ∧
    (∀ t tb, findInboundSheet sheets = some t → assocGet sheets t = some tb →
      get_priority_report sheets (some name) = .single tb) := by
  have hms : memStr name (sheetNames sheets) = false := memStr_eq_false hmem
  have hstep : get_priority_report sheets (some name) =
      (match findInboundSheet sheets with
       | some t =>
         if !t.isEmpty && memStr t (sheetNames sheets) then
           (match assocGet sheets t with
            | some tbl => ReportResult.single tbl
            | none => ReportResult.noResult)
         else ReportResult.noResult
       | none => ReportResult.noResult) := by
    simp [get_priority_report, hall, hne, hms, hout, findInboundSheet]
  constructor
  · intro h
    rw [hstep, h]
  · intro t tb ht htb
    rw [hstep, ht]
    rw [findInboundSheet] at ht
    have hT := List.find?_some ht
    have htne : t ≠ "" := by
      intro he
      rw [he] at hT
      exact Bool.noConfusion hT
    have h1 : t.isEmpty = false := by
      cases hb : t.isEmpty
      · rfl
      · exact absurd ((String.isEmpty_iff t).mp hb) htne
    have h2 : memStr t (sheetNames sheets) = true :=
      memStr_eq_true (List.mem_of_find?_eq_some ht)
    simp [h1, h2, htb]

/-- C10 witness: for the absent selector "Summary" (containing neither search
word) over sheets ["RGOutbound", "InboundDock"], the fallback returns the
"InboundDock" table. -/
theorem priority_report_specific_fallback_witness :
    get_priority_report sampleSheets (some "Summary") = .single 2 :=
  (priority_report_specific_fallback sampleSheets "Summary" (by decide) (by decide)
    (by decide) rfl rfl).2 "InboundDock" 2 rfl rfl
